import Mathlib

/- Verification of the neo4j-mcp tool-dispatch and query-construction layer.
   The definitions below are a shallow embedding of the Python sources
   custom_neo4j_mcp/core/server.py and custom_neo4j_mcp/core/database.py:
   pure query-building code becomes Lean functions on a Python-value type,
   stateful connection management becomes explicit state passing, and code
   that can raise becomes Except-valued. -/

/-- A single-quote character, used wherever the query builders quote string
literals into the query text. -/
def squote : String := String.singleton (Char.ofNat 39)

/-- Python-style dynamic values as they appear in tool argument mappings
and property filters. -/
inductive PyVal where
  | str (s : String)
  | int (n : Int)
  | bool (b : Bool)
  | dict (kvs : List (String × PyVal))
  | list (xs : List PyVal)
  | none
deriving Inhabited

mutual

/-- Python repr of a value, as used for elements inside container displays. -/
def pyRepr : PyVal → String
  | .str s => squote ++ s ++ squote
  | .int n => toString n
  | .bool b => if b then "True" else "False"
  | .dict kvs => "\x7b" ++ String.intercalate ", " (pyReprPairs kvs) ++ "\x7d"
  | .list xs => "[" ++ String.intercalate ", " (pyReprElems xs) ++ "]"
  | .none => "None"

/-- Renders each key/value pair of a dict display. -/
def pyReprPairs : List (String × PyVal) → List String
  | [] => []
  | (k, v) :: rest => (squote ++ k ++ squote ++ ": " ++ pyRepr v) :: pyReprPairs rest

/-- Renders each element of a list display. -/
def pyReprElems : List PyVal → List String
  | [] => []
  | v :: rest => pyRepr v :: pyReprElems rest

end

/-- Python str() of a value, the conversion applied by the f-strings in the
query builders: a string interpolates as itself, everything else as its repr. -/
def pyStr : PyVal → String
  | .str s => s
  | v => pyRepr v

/-- Python truthiness, as used by the handlers' presence checks such as
`if not label:` and `if properties:`. -/
def truthy : PyVal → Bool
  | .str s => !s.isEmpty
  | .int n => n != 0
  | .bool b => b
  | .dict kvs => !kvs.isEmpty
  | .list xs => !xs.isEmpty
  | .none => false

/-- A tool-call arguments mapping (the Python dict handed to each handler). -/
abbrev Args := List (String × PyVal)

/-- Python dict.get(key): the stored value, or None when the key is absent. -/
def Args.get (args : Args) (k : String) : PyVal :=
  (args.lookup k).getD PyVal.none

/-- Python dict.get(key, default). -/
def Args.getD (args : Args) (k : String) (d : PyVal) : PyVal :=
  (args.lookup k).getD d

/-- Python value.items(): succeeds on dicts, raises AttributeError otherwise. -/
def PyVal.items : PyVal → Except String (List (String × PyVal))
  | .dict kvs => Except.ok kvs
  | _ => Except.error "object has no attribute items"

/-- One equality filter term, as built by the handlers' condition loops
(server.py lines 938-942 for find_nodes, and the analogous loops in
find_relationships and the three path handlers): a string value is emitted
single-quoted, any other value is emitted as a bare literal. -/
def eqCondition (v : String) (kv : String × PyVal) : String :=
  match kv.2 with
  | .str s => v ++ "." ++ kv.1 ++ " = " ++ squote ++ s ++ squote
  | w => v ++ "." ++ kv.1 ++ " = " ++ pyStr w

/-- A protocol content item; every handler and the dispatcher return a list
of these (the Python code always builds TextContent(type="text", text=...)). -/
inductive Content where
  | text (s : String)
deriving DecidableEq

/-- The behaviour of the twenty routed tool handlers, abstracted: each is a
function from the arguments mapping to either a content list or a raised
exception message (the real handlers perform database work, so their
outcomes are parameters of the dispatch model). -/
structure ToolEnv where
  get_neo4j_schema : Args → Except String (List Content)
  get_database_info : Args → Except String (List Content)
  read_neo4j_cypher : Args → Except String (List Content)
  write_neo4j_cypher : Args → Except String (List Content)
  explain_neo4j_cypher : Args → Except String (List Content)
  get_database_statistics : Args → Except String (List Content)
  get_node_counts_by_label : Args → Except String (List Content)
  get_relationship_counts_by_type : Args → Except String (List Content)
  get_indexes : Args → Except String (List Content)
  get_constraints : Args → Except String (List Content)
  create_index : Args → Except String (List Content)
  create_constraint : Args → Except String (List Content)
  drop_index : Args → Except String (List Content)
  drop_constraint : Args → Except String (List Content)
  get_sample_data : Args → Except String (List Content)
  find_nodes : Args → Except String (List Content)
  find_relationships : Args → Except String (List Content)
  find_paths : Args → Except String (List Content)
  find_shortest_path : Args → Except String (List Content)
  find_all_paths : Args → Except String (List Content)

/-- A ToolEnv in which every handler behaves the same way. -/
def constEnv (f : Args → Except String (List Content)) : ToolEnv :=
  ⟨f, f, f, f, f, f, f, f, f, f, f, f, f, f, f, f, f, f, f, f⟩

/-- The tool names the dispatch chain recognises (server.py lines 84-133). -/
def registeredToolNames : List String :=
  ["get_neo4j_schema", "get_database_info", "read_neo4j_cypher",
   "write_neo4j_cypher", "explain_neo4j_cypher", "get_database_statistics",
   "get_node_counts_by_label", "get_relationship_counts_by_type",
   "get_indexes", "get_constraints", "create_index", "create_constraint",
   "drop_index", "drop_constraint", "get_sample_data", "find_nodes",
   "find_relationships", "find_paths", "find_shortest_path", "find_all_paths"]

/-- The body of the try-block of handle_call_tool (server.py lines 82-136):
an if/elif chain on the tool name, routing to the matching handler, with the
final else returning the unknown-tool text. -/
def routeTool (env : ToolEnv) (name : String) (arguments : Args) :
    Except String (List Content) :=
  if name = "get_neo4j_schema" then env.get_neo4j_schema arguments
  else if name = "get_database_info" then env.get_database_info arguments
  else if name = "read_neo4j_cypher" then env.read_neo4j_cypher arguments
  else if name = "write_neo4j_cypher" then env.write_neo4j_cypher arguments
  else if name = "explain_neo4j_cypher" then env.explain_neo4j_cypher arguments
  else if name = "get_database_statistics" then env.get_database_statistics arguments
  else if name = "get_node_counts_by_label" then env.get_node_counts_by_label arguments
  else if name = "get_relationship_counts_by_type" then env.get_relationship_counts_by_type arguments
  else if name = "get_indexes" then env.get_indexes arguments
  else if name = "get_constraints" then env.get_constraints arguments
  else if name = "create_index" then env.create_index arguments
  else if name = "create_constraint" then env.create_constraint arguments
  else if name = "drop_index" then env.drop_index arguments
  else if name = "drop_constraint" then env.drop_constraint arguments
  else if name = "get_sample_data" then env.get_sample_data arguments
  else if name = "find_nodes" then env.find_nodes arguments
  else if name = "find_relationships" then env.find_relationships arguments
  else if name = "find_paths" then env.find_paths arguments
  else if name = "find_shortest_path" then env.find_shortest_path arguments
  else if name = "find_all_paths" then env.find_all_paths arguments
  else Except.ok [Content.text ("Unknown tool: " ++ name)]

/-- handle_call_tool (server.py lines 81-139): the routing chain wrapped in
try/except, so a raised exception becomes an "Error: ..." text result and
nothing propagates to the protocol layer. -/
def handle_call_tool (env : ToolEnv) (name : String) (arguments : Args) :
    List Content :=
  match routeTool env name arguments with
  | Except.ok r => r
  | Except.error e => [Content.text ("Error: " ++ e)]

/-- Distinguishes a handler run that replied with a plain text message
before touching the database from one that proceeded to execute a query. -/
inductive ToolStep where
  | reply (s : String)
  | execQuery (q : String)
deriving DecidableEq

/-- Query construction of find_nodes (server.py lines 932-947): a MATCH
clause on the label, a WHERE conjunction of equality terms when a truthy
properties mapping is supplied, then RETURN with the limit interpolated. -/
def findNodesQuery (label properties limit : PyVal) : Except String String := do
  let base := "MATCH (n:" ++ pyStr label ++ ")"
  let q ← if truthy properties then do
      let items ← properties.items
      let conditions := items.map (eqCondition "n")
      pure (if conditions.isEmpty then base else
        base ++ " WHERE " ++ String.intercalate " AND " conditions)
    else pure base
  pure (q ++ " RETURN n LIMIT " ++ pyStr limit)

/-- The find_nodes handler entry (server.py lines 915-953): extracts label,
properties and limit, returns the validation message when the label is
missing or falsy, and otherwise builds the query and executes it. -/
def find_nodes (args : Args) : Except String ToolStep :=
  let label := Args.get args "label"
  let properties := Args.getD args "properties" (PyVal.dict [])
  let limit := Args.getD args "limit" (PyVal.int 10)
  if !truthy label then Except.ok (ToolStep.reply "Node label is required")
  else do
    let q ← findNodesQuery label properties limit
    pure (ToolStep.execQuery q)

/-- The find_paths handler (server.py lines 1001-1063): extracts the six
arguments with their defaults, validates only the two labels, then builds
the start/end condition lists and the triple-quoted query text exactly as
the source f-string does, and executes it. -/
def find_paths (args : Args) : Except String ToolStep :=
  let start_label := Args.get args "start_label"
  let start_properties := Args.getD args "start_properties" (PyVal.dict [])
  let end_label := Args.get args "end_label"
  let end_properties := Args.getD args "end_properties" (PyVal.dict [])
  let max_depth := Args.getD args "max_depth" (PyVal.int 3)
  let limit := Args.getD args "limit" (PyVal.int 5)
  if !truthy start_label || !truthy end_label then
    Except.ok (ToolStep.reply "Start and end labels are required")
  else do
    let sitems ← start_properties.items
    let start_conditions := sitems.map (eqCondition "start")
    let eitems ← end_properties.items
    let end_conditions := eitems.map (eqCondition "end")
    let q :=
      "\n        MATCH (start:" ++ pyStr start_label ++ "), (end:" ++
        pyStr end_label ++ ")" ++
      "\n        WHERE " ++ (if start_conditions.isEmpty then "true"
        else String.intercalate " AND " start_conditions) ++
      "\n        AND " ++ (if end_conditions.isEmpty then "true"
        else String.intercalate " AND " end_conditions) ++
      "\n        MATCH path = (start)-[*1.." ++ pyStr max_depth ++ "]->(end)" ++
      "\n        RETURN path" ++
      "\n        LIMIT " ++ pyStr limit ++
      "\n        "
    pure (ToolStep.execQuery q)

/-- Relationship-pattern construction of find_shortest_path (server.py lines
1101-1106), transcribed exactly as written: when relationship_types is
truthy (non-empty) the unfiltered variable-length pattern is built, and when
it is empty the branch joining the type list into a filter runs instead. -/
def findShortestPathRelPattern (relationship_types : List String)
    (max_depth : PyVal) : String :=
  if !relationship_types.isEmpty then
    "[*1.." ++ pyStr max_depth ++ "]"
  else
    let rel_types_str := String.intercalate "|" relationship_types
    "[*1.." ++ pyStr max_depth ++ " r WHERE type(r) IN [" ++ squote ++
      rel_types_str ++ squote ++ "]]"

/-- Relationship-pattern construction of find_all_paths (server.py lines
1172-1177); its body is the same inverted branch as in find_shortest_path. -/
def findAllPathsRelPattern (relationship_types : List String)
    (max_depth : PyVal) : String :=
  if !relationship_types.isEmpty then
    "[*1.." ++ pyStr max_depth ++ "]"
  else
    let rel_types_str := String.intercalate "|" relationship_types
    "[*1.." ++ pyStr max_depth ++ " r WHERE type(r) IN [" ++ squote ++
      rel_types_str ++ squote ++ "]]"

/-- The mutation-counter summary the driver exposes after a write query;
each field is the count of one mutation kind, zero when the query caused no
mutation of that kind. -/
structure Counters where
  nodes_created : Nat
  nodes_deleted : Nat
  relationships_created : Nat
  relationships_deleted : Nat
  properties_set : Nat
  labels_added : Nat
  labels_removed : Nat
  indexes_added : Nat
  indexes_removed : Nat
  constraints_added : Nat
  constraints_removed : Nat
deriving DecidableEq

/-- The record run_write_query builds from the summary counters
(database.py lines 128-140), key by key in source order. -/
def writeCounters (c : Counters) : List (String × Nat) :=
  [("nodes_created", c.nodes_created),
   ("nodes_deleted", c.nodes_deleted),
   ("relationships_created", c.relationships_created),
   ("relationships_deleted", c.relationships_deleted),
   ("properties_set", c.properties_set),
   ("labels_added", c.labels_added),
   ("labels_removed", c.labels_removed),
   ("indexes_added", c.indexes_added),
   ("indexes_removed", c.indexes_removed),
   ("constraints_added", c.constraints_added),
   ("constraints_removed", c.constraints_removed)]

/-- The process environment, restricted to the four variables the
constructor reads; a field is some v exactly when the variable is set
(possibly to the empty string). -/
structure OsEnv where
  NEO4J_URL : Option String
  NEO4J_USERNAME : Option String
  NEO4J_PASSWORD : Option String
  NEO4J_DATABASE : Option String
deriving DecidableEq

/-- Python's `arg or os.environ.get(var, default)` (database.py lines
32-34): a truthy (non-empty) explicit argument wins; otherwise the
environment value whenever the variable is set, even to the empty string;
otherwise the hard-coded default. -/
def orEnv (arg : Option String) (envVal : Option String) (d : String) : String :=
  match arg with
  | some s => if s.isEmpty then envVal.getD d else s
  | Option.none => envVal.getD d

/-- Resolution of self.uri (database.py line 32). -/
def resolveUri (uri : Option String) (env : OsEnv) : String :=
  orEnv uri env.NEO4J_URL "bolt://localhost:7687"

/-- Resolution of self.username (database.py line 33). -/
def resolveUsername (username : Option String) (env : OsEnv) : String :=
  orEnv username env.NEO4J_USERNAME "neo4j"

/-- Resolution of self.password (database.py line 34). -/
def resolvePassword (password : Option String) (env : OsEnv) : String :=
  orEnv password env.NEO4J_PASSWORD ""

/-- The auth tuple connect passes to the driver (database.py line 47):
the credential pair when the resolved password is truthy, otherwise no
credential at all. -/
def connectAuth (username password : String) : Option (String × String) :=
  if !password.isEmpty then some (username, password) else Option.none

/-- The connection manager's state: the resolved configuration plus the
optional driver handle (database.py attributes set in __init__). -/
structure DBState where
  uri : String
  username : String
  password : String
  database : Option String
  driver : Option Unit
deriving DecidableEq

/-- Observable side effects of the connection manager. -/
inductive DBAction where
  | driverClose
deriving DecidableEq

/-- close (database.py lines 62-69): when a driver handle is present it is
closed and the field cleared; when no handle is present nothing happens. -/
def close (s : DBState) : DBState × List DBAction :=
  match s.driver with
  | some _ => ({ s with driver := Option.none }, [DBAction.driverClose])
  | Option.none => (s, [])

/-- A row returned by a read query: one record as a key/value mapping. -/
abbrev Row := List (String × PyVal)

/-- The graph engine as an external collaborator: whether it is reachable,
and the rows or write summary it produces for a query. -/
structure Engine where
  reachable : Bool
  run : String → List Row
  writeSummary : String → Counters

/-- connect (database.py lines 40-53): creates a driver handle and verifies
connectivity, raising when the engine is unreachable. -/
def connect (eng : Engine) (s : DBState) : Except String DBState :=
  if eng.reachable then Except.ok { s with driver := some () }
  else Except.error "Failed to connect to Neo4j"

/-- A session handle bound to one database name. -/
structure NSession where
  database : Option String
deriving DecidableEq

/-- get_session (database.py lines 71-81): reconnects when no driver handle
exists, then returns a session bound to the configured database. -/
def get_session (eng : Engine) (s : DBState) : Except String (NSession × DBState) :=
  match s.driver with
  | Option.none => do
      let s2 ← connect eng s
      Except.ok (⟨s2.database⟩, s2)
  | some _ => Except.ok (⟨s.database⟩, s)

/-- Python's `database or self.database` (database.py lines 100 and 122). -/
def dbOverride (database : Option String) (s : DBState) : Option String :=
  match database with
  | some d => if d.isEmpty then s.database else some d
  | Option.none => s.database

/-- run_query (database.py lines 83-103): dereferences the driver handle
directly (raising when it is absent, with no reconnect and no query
issued), otherwise opens a session and returns the rows; the second
component is the trace of (database, query, params) actually run. -/
def run_query (eng : Engine) (s : DBState) (query : String)
    (params : Option (List (String × PyVal))) (database : Option String) :
    Except String (List Row) × List (Option String × String × List (String × PyVal)) :=
  let db := dbOverride database s
  match s.driver with
  | Option.none => (Except.error "NoneType object has no attribute session", [])
  | some _ => (Except.ok (eng.run query), [(db, query, params.getD [])])

/-- run_write_query (database.py lines 105-140): same driver dereference as
run_query, but consuming the result summary and returning the counter
record instead of rows. -/
def run_write_query (eng : Engine) (s : DBState) (query : String)
    (params : Option (List (String × PyVal))) (database : Option String) :
    Except String (List (String × Nat)) × List (Option String × String × List (String × PyVal)) :=
  let db := dbOverride database s
  match s.driver with
  | Option.none => (Except.error "NoneType object has no attribute session", [])
  | some _ => (Except.ok (writeCounters (eng.writeSummary query)), [(db, query, params.getD [])])

/-- Worker for firstDedup: keeps each element not seen before, tracking the
already-emitted ones. -/
def firstDedupAux {α : Type} [DecidableEq α] (seen : List α) : List α → List α
  | [] => []
  | x :: rest =>
    if x ∈ seen then firstDedupAux seen rest
    else x :: firstDedupAux (x :: seen) rest

/-- Removes duplicates from a list keeping the first occurrence of each
element; this is the order in which a DISTINCT introspection query yields
rows in the engine model below. -/
def firstDedup {α : Type} [DecidableEq α] (xs : List α) : List α :=
  firstDedupAux [] xs

/-- A node of the modelled graph: its labels and its property keys. -/
structure GNode where
  labels : List String
  keys : List String
deriving DecidableEq

/-- A directed typed edge of the modelled graph, endpoints by node index. -/
structure GEdge where
  typ : String
  src : Nat
  tgt : Nat
deriving DecidableEq

/-- The state of the external graph engine's database. -/
structure Graph where
  nodes : List GNode
  edges : List GEdge
deriving DecidableEq

/-- The node an edge endpoint index denotes (a default empty node when the
index is out of range, which a real database never produces). -/
def nodeAt (g : Graph) (i : Nat) : GNode := (g.nodes.get? i).getD ⟨[], []⟩

/-- Engine model: result of the fixed `CALL db.labels()` query issued by
get_basic_schema, the distinct node labels in first-appearance order. -/
def dbLabels (g : Graph) : List String :=
  firstDedup (g.nodes.flatMap (fun n => n.labels))

/-- Engine model: result of the per-label DISTINCT property-key query
(database.py lines 200-204). -/
def propKeys (g : Graph) (label : String) : List String :=
  firstDedup ((g.nodes.filter (fun n => n.labels.contains label)).flatMap
    (fun n => n.keys))

/-- Engine model: result of `CALL db.relationshipTypes()`. -/
def relTypes (g : Graph) : List String :=
  firstDedup (g.edges.map (fun e => e.typ))

/-- Engine model: the per-type sampling query (database.py lines 223-227),
which returns the DISTINCT (source-labels, target-labels) list pairs over
the edges of the type, at most 5 rows. -/
def relDetails (g : Graph) (t : String) : List (List String × List String) :=
  (firstDedup ((g.edges.filter (fun e => e.typ == t)).map
    (fun e => ((nodeAt g e.src).labels, (nodeAt g e.tgt).labels)))).take 5

/-- The nested source_label/target_label loops of get_basic_schema
(database.py lines 235-241) applied to one sampled row: one appended
(type, source, target) entry per label combination. -/
def expandRow (t : String) (d : List String × List String) :
    List (String × String × String) :=
  d.1.flatMap (fun sl => d.2.map (fun tl => (t, sl, tl)))

/-- The shape of the dictionary get_basic_schema assembles. -/
structure BasicSchema where
  nodes : List (String × List (String × String))
  relationships : List (String × String × String)
deriving DecidableEq

/-- get_basic_schema (database.py lines 173-243): each observed node label
with its observed property keys all typed "unknown", and the relationship
entries appended per sampled row and per source/target label combination. -/
def get_basic_schema (g : Graph) : BasicSchema :=
  { nodes := (dbLabels g).map (fun label =>
      (label, (propKeys g label).map (fun p => (p, "unknown")))),
    relationships := (relTypes g).flatMap (fun t =>
      (relDetails g t).flatMap (expandRow t)) }

/-- A driver node as the path handlers see it. -/
structure NeoNode where
  labels : List String
  props : List (String × PyVal)

/-- The node's items(), the property mapping the serializer keeps. -/
def NeoNode.items (n : NeoNode) : List (String × PyVal) := n.props

/-- A driver relationship as the path handlers see it. -/
structure NeoRel where
  typ : String
  props : List (String × PyVal)

/-- The relationship's items(). -/
def NeoRel.items (r : NeoRel) : List (String × PyVal) := r.props

/-- A driver path value. -/
structure NeoPath where
  nodes : List NeoNode
  relationships : List NeoRel

/-- The serialized path dictionary the three path tools build. -/
structure PathData where
  nodes : List (List (String × PyVal))
  relationships : List (List (String × PyVal))
  length : Nat

/-- Path serialization in find_paths (server.py lines 1054-1058). -/
def findPathsPathData (p : NeoPath) : PathData :=
  { nodes := p.nodes.map NeoNode.items,
    relationships := p.relationships.map NeoRel.items,
    length := p.relationships.length }

/-- Path serialization in find_shortest_path (server.py lines 1124-1128). -/
def findShortestPathPathData (p : NeoPath) : PathData :=
  { nodes := p.nodes.map NeoNode.items,
    relationships := p.relationships.map NeoRel.items,
    length := p.relationships.length }

/-- Path serialization in find_all_paths (server.py lines 1196-1200). -/
def findAllPathsPathData (p : NeoPath) : PathData :=
  { nodes := p.nodes.map NeoNode.items,
    relationships := p.relationships.map NeoRel.items,
    length := p.relationships.length }

theorem mem_firstDedupAux {α : Type} [DecidableEq α] (a : α) :
    ∀ (xs seen : List α),
      a ∈ firstDedupAux seen xs ↔ (a ∈ xs ∧ a ∉ seen) := by
  intro xs
  induction xs with
  | nil => simp [firstDedupAux]
  | cons x rest ih =>
    intro seen
    by_cases hx : x ∈ seen
    · rw [firstDedupAux, if_pos hx]
      rw [ih seen]
      constructor
      · rintro ⟨h1, h2⟩
        exact ⟨List.mem_cons_of_mem _ h1, h2⟩
      · rintro ⟨h1, h2⟩
        rcases List.mem_cons.mp h1 with rfl | h1
        · exact absurd hx h2
        · exact ⟨h1, h2⟩
    · rw [firstDedupAux, if_neg hx]
      rw [List.mem_cons, ih (x :: seen)]
      constructor
      · rintro (rfl | ⟨h1, h2⟩)
        · exact ⟨List.mem_cons_self _ _, hx⟩
        · exact ⟨List.mem_cons_of_mem _ h1,
            fun hs => h2 (List.mem_cons_of_mem _ hs)⟩
      · rintro ⟨h1, h2⟩
        rcases eq_or_ne a x with rfl | hne
        · exact Or.inl rfl
        · rcases List.mem_cons.mp h1 with rfl | h1
          · exact Or.inl rfl
          · refine Or.inr ⟨h1, fun hs => ?_⟩
            rcases List.mem_cons.mp hs with rfl | hs
            · exact hne rfl
            · exact h2 hs

theorem nodup_firstDedupAux {α : Type} [DecidableEq α] :
    ∀ (xs seen : List α), (firstDedupAux seen xs).Nodup := by
  intro xs
  induction xs with
  | nil => simp [firstDedupAux]
  | cons x rest ih =>
    intro seen
    by_cases hx : x ∈ seen
    · rw [firstDedupAux, if_pos hx]
      exact ih seen
    · rw [firstDedupAux, if_neg hx]
      refine List.nodup_cons.mpr ⟨?_, ih (x :: seen)⟩
      intro hmem
      exact ((mem_firstDedupAux x rest (x :: seen)).mp hmem).2
        (List.mem_cons_self _ _)

theorem mem_firstDedup {α : Type} [DecidableEq α] (a : α) (xs : List α) :
    a ∈ firstDedup xs ↔ a ∈ xs := by
  rw [firstDedup, mem_firstDedupAux]
  simp

theorem nodup_firstDedup {α : Type} [DecidableEq α] (xs : List α) :
    (firstDedup xs).Nodup :=
  nodup_firstDedupAux xs []

/-- C1: evaluating the relationship-pattern construction of
find_shortest_path and find_all_paths at the failing inputs: when a
non-empty relationship_types list is supplied the constructed pattern is the
unfiltered variable-length pattern, and when the list is empty the pattern
carries a degenerate type filter over the empty join — exactly the inverse
of the claimed (and spec-intended) contract. -/
theorem C1_inverted_relationship_filter :
    findShortestPathRelPattern ["KNOWS"] (PyVal.int 5) = "[*1..5]" ∧
    findShortestPathRelPattern [] (PyVal.int 5) =
      "[*1..5 r WHERE type(r) IN [" ++ squote ++ squote ++ "]]" ∧
    findAllPathsRelPattern ["KNOWS"] (PyVal.int 3) = "[*1..3]" ∧
    findAllPathsRelPattern [] (PyVal.int 3) =
      "[*1..3 r WHERE type(r) IN [" ++ squote ++ squote ++ "]]" :=
  ⟨rfl, rfl, rfl, rfl⟩

/-- C5: run_write_query always returns the record with exactly the eleven
counter keys in fixed order, every execution on a live driver returns that
record built from the engine summary, and a summary of one created node
with two set properties yields nodes_created 1, properties_set 2 and every
other counter 0. -/
theorem C5_write_query_counters :
    (∀ c : Counters, (writeCounters c).map Prod.fst =
      ["nodes_created", "nodes_deleted", "relationships_created",
       "relationships_deleted", "properties_set", "labels_added",
       "labels_removed", "indexes_added", "indexes_removed",
       "constraints_added", "constraints_removed"] ∧
      (writeCounters c).length = 11) ∧
    (∀ (eng : Engine) (uri username password : String)
       (database dbq : Option String) (q : String)
       (p : Option (List (String × PyVal))),
      (run_write_query eng ⟨uri, username, password, database, some ()⟩ q p dbq).1 =
        Except.ok (writeCounters (eng.writeSummary q))) ∧
    writeCounters ⟨1, 0, 0, 0, 2, 0, 0, 0, 0, 0, 0⟩ =
      [("nodes_created", 1), ("nodes_deleted", 0),
       ("relationships_created", 0), ("relationships_deleted", 0),
       ("properties_set", 2), ("labels_added", 0), ("labels_removed", 0),
       ("indexes_added", 0), ("indexes_removed", 0),
       ("constraints_added", 0), ("constraints_removed", 0)] :=
  ⟨fun _ => ⟨rfl, rfl⟩, fun _ _ _ _ _ _ _ _ => rfl, rfl⟩

/-- C7: the three path tools serialize a path identically, to the record
whose nodes and relationships are the property mappings of the path's nodes
and relationships and whose length field equals the number of relationships
in the path. -/
theorem C7_path_serialization_uniform (p : NeoPath) :
    findShortestPathPathData p = findPathsPathData p ∧
    findAllPathsPathData p = findPathsPathData p ∧
    (findPathsPathData p).length = p.relationships.length ∧
    (findPathsPathData p).relationships.length = (findPathsPathData p).length := by
  refine ⟨rfl, rfl, rfl, ?_⟩
  simp [findPathsPathData]

/-- C9: close is idempotent: on a manager whose handle is already absent it
changes nothing and performs no action, and a second close after any close
is always such a no-op. -/
theorem C9_close_idempotent (s : DBState) :
    (s.driver = Option.none → close s = (s, [])) ∧
    close (close s).1 = ((close s).1, []) ∧
    (close s).1.driver = Option.none := by
  rcases s with ⟨u, un, pw, db, dr⟩
  cases dr <;> simp [close]

/-- C9 witness: close on a concrete already-closed manager is a no-op. -/
theorem C9_close_idempotent_witness :
    close ⟨"bolt://localhost:7687", "neo4j", "", Option.none, Option.none⟩ =
      (⟨"bolt://localhost:7687", "neo4j", "", Option.none, Option.none⟩, []) :=
  (C9_close_idempotent _).1 rfl

/-- C10: with the driver handle absent, run_query and run_write_query raise
(dereferencing the absent handle) with no query issued and no reconnect,
while get_session re-establishes the connection (when the engine is
reachable) and returns a session bound to the configured database. -/
theorem C10_absent_handle_behaviour (eng : Engine) (s : DBState) (q : String)
    (p : Option (List (String × PyVal))) (d : Option String)
    (h : s.driver = Option.none) :
    run_query eng s q p d =
      (Except.error "NoneType object has no attribute session", []) ∧
    run_write_query eng s q p d =
      (Except.error "NoneType object has no attribute session", []) ∧
    (eng.reachable = true →
      get_session eng s = Except.ok (⟨s.database⟩, { s with driver := some () })) := by
  refine ⟨?_, ?_, ?_⟩
  · simp [run_query, h]
  · simp [run_write_query, h]
  · intro hr
    simp [get_session, h, connect, hr, Bind.bind, Except.bind]

/-- A concrete reachable engine used to instantiate hypotheses. -/
def engW : Engine :=
  ⟨true, fun _ => [], fun _ => ⟨0, 0, 0, 0, 0, 0, 0, 0, 0, 0, 0⟩⟩

/-- A concrete closed-manager state used to instantiate hypotheses. -/
def closedState : DBState :=
  ⟨"bolt://localhost:7687", "neo4j", "", Option.none, Option.none⟩

/-- C10 witness: the absent-handle behaviour at a concrete closed state and
reachable engine. -/
theorem C10_absent_handle_behaviour_witness :
    run_query engW closedState "MATCH (n) RETURN n" Option.none Option.none =
      (Except.error "NoneType object has no attribute session", []) ∧
    get_session engW closedState =
      Except.ok (⟨Option.none⟩, { closedState with driver := some () }) :=
  ⟨(C10_absent_handle_behaviour engW closedState "MATCH (n) RETURN n"
      Option.none Option.none rfl).1,
   (C10_absent_handle_behaviour engW closedState "MATCH (n) RETURN n"
      Option.none Option.none rfl).2.2 rfl⟩

/-- C2: the dispatch handler always returns a content-list result, never an
exception: an unregistered name yields exactly the unknown-tool text, a
routed handler that raises yields exactly the error text carrying the
exception message (shown both for the routing as a whole and for the
concrete find_nodes route), and a successful route is returned unchanged. -/
theorem C2_dispatch_contract (env : ToolEnv) (name : String) (arguments : Args) :
    (name ∉ registeredToolNames →
      handle_call_tool env name arguments =
        [Content.text ("Unknown tool: " ++ name)]) ∧
    (∀ e, env.find_nodes arguments = Except.error e →
      handle_call_tool env "find_nodes" arguments =
        [Content.text ("Error: " ++ e)]) ∧
    (∀ r, routeTool env name arguments = Except.ok r →
      handle_call_tool env name arguments = r) ∧
    (∀ e, routeTool env name arguments = Except.error e →
      handle_call_tool env name arguments = [Content.text ("Error: " ++ e)]) := by
  refine ⟨?_, ?_, ?_, ?_⟩
  · intro h
    simp only [registeredToolNames, List.mem_cons, List.not_mem_nil, or_false,
      not_or] at h
    obtain ⟨h1, h2, h3, h4, h5, h6, h7, h8, h9, h10, h11, h12, h13, h14, h15,
      h16, h17, h18, h19, h20⟩ := h
    unfold handle_call_tool routeTool
    rw [if_neg h1, if_neg h2, if_neg h3, if_neg h4, if_neg h5, if_neg h6,
      if_neg h7, if_neg h8, if_neg h9, if_neg h10, if_neg h11, if_neg h12,
      if_neg h13, if_neg h14, if_neg h15, if_neg h16, if_neg h17, if_neg h18,
      if_neg h19, if_neg h20]
  · intro e he
    have hroute : routeTool env "find_nodes" arguments = env.find_nodes arguments := by
      simp [routeTool]
    unfold handle_call_tool
    rw [hroute, he]
  · intro r hr
    unfold handle_call_tool
    rw [hr]
  · intro e he
    unfold handle_call_tool
    rw [he]

/-- C2 witness: a concrete unknown name yields the unknown-tool text, and a
concrete raising find_nodes handler yields the error text. -/
theorem C2_dispatch_contract_witness :
    handle_call_tool (constEnv (fun _ => Except.ok [])) "nonexistent_tool" [] =
      [Content.text ("Unknown tool: " ++ "nonexistent_tool")] ∧
    handle_call_tool (constEnv (fun _ => Except.error "boom")) "find_nodes" [] =
      [Content.text ("Error: " ++ "boom")] :=
  ⟨(C2_dispatch_contract (constEnv (fun _ => Except.ok [])) "nonexistent_tool" []).1
      (by decide),
   (C2_dispatch_contract (constEnv (fun _ => Except.error "boom")) "find_nodes" []).2.1
      "boom" rfl⟩

/-- Arguments for find_paths that carry start_label, end_label and
end_properties but omit the declared-required start_properties. -/
def argsMissingStartProps : Args :=
  [("start_label", PyVal.str "Person"), ("end_label", PyVal.str "Person"),
   ("end_properties", PyVal.dict [("name", PyVal.str "Bob")])]

/-- C3 counterexample: with the declared-required start_properties argument
absent, find_paths does not return a validation-error result; it defaults
the mapping to empty and proceeds to execute a query. -/
theorem C3_missing_required_argument_counterexample :
    Args.get argsMissingStartProps "start_properties" = PyVal.none ∧
    ∃ q, find_paths argsMissingStartProps = Except.ok (ToolStep.execQuery q) :=
  ⟨rfl, ⟨_, rfl⟩⟩

/-- C3 amended: the validation each handler actually performs: find_nodes
with a missing (or falsy) label, and find_paths with a missing start or end
label, return a single textual validation-error result without executing
any query; the path tools do not validate start_properties or
end_properties. -/
theorem C3_validation_checks (args : Args) :
    (truthy (Args.get args "label") = false →
      find_nodes args = Except.ok (ToolStep.reply "Node label is required")) ∧
    ((truthy (Args.get args "start_label") = false ∨
      truthy (Args.get args "end_label") = false) →
      find_paths args =
        Except.ok (ToolStep.reply "Start and end labels are required")) := by
  constructor
  · intro h
    simp [find_nodes, h]
  · intro h
    rcases h with h | h <;> simp [find_paths, h]

/-- C3 witness: the validation messages at concrete argument mappings with
the checked argument absent. -/
theorem C3_validation_checks_witness :
    find_nodes [] = Except.ok (ToolStep.reply "Node label is required") ∧
    find_paths [("start_label", PyVal.str "Person")] =
      Except.ok (ToolStep.reply "Start and end labels are required") :=
  ⟨(C3_validation_checks []).1 rfl,
   (C3_validation_checks [("start_label", PyVal.str "Person")]).2 (Or.inr rfl)⟩

/-- C4: the query find_nodes constructs: a MATCH clause on exactly the given
label; with a non-empty properties mapping, a WHERE clause conjoining (with
" AND ") exactly one equality term per property key, the term quoting a
string value in single quotes and emitting any other value bare; with an
empty properties mapping, no WHERE clause at all. -/
theorem C4_find_nodes_query_shape (label : String) (limit : PyVal)
    (k : String) (v : PyVal) (kvs : List (String × PyVal)) :
    findNodesQuery (PyVal.str label) (PyVal.dict ((k, v) :: kvs)) limit =
      Except.ok ("MATCH (n:" ++ label ++ ") WHERE " ++
        String.intercalate " AND " (((k, v) :: kvs).map (fun kv2 =>
          "n." ++ kv2.1 ++ " = " ++
            (match kv2.2 with
             | PyVal.str s => squote ++ s ++ squote
             | w => pyStr w))) ++
        " RETURN n LIMIT " ++ pyStr limit) ∧
    findNodesQuery (PyVal.str label) (PyVal.dict []) limit =
      Except.ok ("MATCH (n:" ++ label ++ ") RETURN n LIMIT " ++ pyStr limit) := by
  have hfun : (fun kv2 : String × PyVal =>
      "n." ++ kv2.1 ++ " = " ++
        (match kv2.2 with
         | PyVal.str s => squote ++ s ++ squote
         | w => pyStr w)) = eqCondition "n" := by
    funext kv2
    rcases kv2 with ⟨k2, v2⟩
    cases v2 <;> simp [eqCondition, pyStr, String.append_assoc]
  constructor
  · rw [hfun]
    simp [findNodesQuery, truthy, PyVal.items, Bind.bind, Except.bind, pure,
      Except.pure, pyStr, String.append_assoc]
  · simp [findNodesQuery, truthy, pyStr, Bind.bind, Except.bind, pure,
      Except.pure, String.append_assoc]

/-- C8 counterexample: with no explicit uri argument and the NEO4J_URL
environment variable set to the empty string, the resolved uri is empty,
so the non-emptiness invariant fails for this combination of constructor
arguments and environment values. -/
theorem C8_empty_env_counterexample :
    resolveUri Option.none ⟨some "", Option.none, Option.none, Option.none⟩ = "" ∧
    ("" : String).isEmpty = true :=
  ⟨rfl, rfl⟩

/-- C8 amended: uri and username resolve to non-empty values provided each
set environment variable is non-empty; the precedence is non-empty explicit
argument, else the environment value whenever the variable is set (even to
the empty string), else the hard-coded default; and whenever the resolved
password is empty, no credential is presented to the engine. -/
theorem C8_config_resolution (uri username password : Option String)
    (env : OsEnv) :
    ((∀ v, env.NEO4J_URL = some v → v ≠ "") → resolveUri uri env ≠ "") ∧
    ((∀ v, env.NEO4J_USERNAME = some v → v ≠ "") →
      resolveUsername username env ≠ "") ∧
    (∀ u, uri = some u → u ≠ "" → resolveUri uri env = u) ∧
    ((uri = Option.none ∨ uri = some "") →
      ∀ v, env.NEO4J_URL = some v → resolveUri uri env = v) ∧
    ((uri = Option.none ∨ uri = some "") → env.NEO4J_URL = Option.none →
      resolveUri uri env = "bolt://localhost:7687") ∧
    (resolvePassword password env = "" →
      connectAuth (resolveUsername username env) (resolvePassword password env) =
        Option.none) := by
  have hor : ∀ (arg envVal : Option String) (d : String),
      (∀ v, envVal = some v → v ≠ "") → d ≠ "" → orEnv arg envVal d ≠ "" := by
    intro arg envVal d he hd
    rcases arg with _ | s
    · rcases hu : envVal with _ | v
      · simp [orEnv, hu, hd]
      · simpa [orEnv, hu] using he v hu
    · by_cases hs : s = ""
      · subst hs
        rcases hu : envVal with _ | v
        · simp [orEnv, hu, hd, String.isEmpty_iff]
        · simpa [orEnv, hu, String.isEmpty_iff] using he v hu
      · simp [orEnv, String.isEmpty_iff, hs]
  refine ⟨?_, ?_, ?_, ?_, ?_, ?_⟩
  · intro he
    exact hor uri env.NEO4J_URL _ he (by decide)
  · intro he
    exact hor username env.NEO4J_USERNAME _ he (by decide)
  · rintro u rfl hu
    simp [resolveUri, orEnv, String.isEmpty_iff, hu]
  · rintro (rfl | rfl) v hv <;>
      simp [resolveUri, orEnv, hv, String.isEmpty_iff]
  · rintro (rfl | rfl) hv <;>
      simp [resolveUri, orEnv, hv, String.isEmpty_iff]
  · intro h
    rw [h]
    simp [connectAuth, String.isEmpty_iff]

/-- An environment with none of the four variables set. -/
def envUnset : OsEnv := ⟨Option.none, Option.none, Option.none, Option.none⟩

/-- C8 witness: with a non-empty explicit uri it is resolved verbatim, and
with everything unset the empty resolved password presents no credential. -/
theorem C8_config_resolution_witness :
    resolveUri (some "bolt://example:7687") envUnset = "bolt://example:7687" ∧
    connectAuth (resolveUsername Option.none envUnset)
      (resolvePassword Option.none envUnset) = Option.none :=
  ⟨(C8_config_resolution (some "bolt://example:7687") Option.none Option.none
      envUnset).2.2.1 "bolt://example:7687" rfl (by decide),
   (C8_config_resolution Option.none Option.none Option.none
      envUnset).2.2.2.2.2 rfl⟩

theorem fst_of_mem_expandRow {t : String} {d : List String × List String}
    {e : String × String × String} (h : e ∈ expandRow t d) : e.1 = t := by
  simp only [expandRow, List.mem_flatMap, List.mem_map] at h
  obtain ⟨sl, _, tl, _, rfl⟩ := h
  rfl

theorem nodeAt_mem {g : Graph} {i : Nat} (h : i < g.nodes.length) :
    nodeAt g i ∈ g.nodes := by
  rw [nodeAt, List.get?_eq_get h]
  exact List.get_mem _ _ _

theorem mem_relDetails {g : Graph} {t : String}
    {d : List String × List String} (hd : d ∈ relDetails g t) :
    ∃ e, e ∈ g.edges ∧ e.typ = t ∧
      d = ((nodeAt g e.src).labels, (nodeAt g e.tgt).labels) := by
  have h1 := List.mem_of_mem_take hd
  have h2 := (mem_firstDedup _ _).mp h1
  simp only [List.mem_map, List.mem_filter, beq_iff_eq] at h2
  obtain ⟨e, ⟨he, het⟩, hde⟩ := h2
  exact ⟨e, he, het, hde.symm⟩

theorem nodup_relDetails (g : Graph) (t : String) : (relDetails g t).Nodup :=
  List.Nodup.sublist (List.take_sublist _ _) (nodup_firstDedup _)

theorem nodup_flatMap_expandRow (t : String) :
    ∀ rows : List (List String × List String), rows.Nodup →
      (∀ d ∈ rows, (∃ a, d.1 = [a]) ∧ (∃ b, d.2 = [b])) →
      (rows.flatMap (expandRow t)).Nodup := by
  intro rows
  induction rows with
  | nil => simp
  | cons r rs ih =>
    intro hnd hshape
    obtain ⟨⟨a, ha⟩, ⟨b, hb⟩⟩ := hshape r (List.mem_cons_self _ _)
    have hrow : expandRow t r = [(t, a, b)] := by
      rcases r with ⟨r1, r2⟩
      simp only at ha hb
      simp [expandRow, ha, hb]
    rw [List.flatMap_cons, hrow]
    apply List.Nodup.append (List.nodup_singleton _)
      (ih (List.Nodup.of_cons hnd) (fun d hd => hshape d (List.mem_cons_of_mem _ hd)))
    intro x hx hx2
    simp only [List.mem_singleton] at hx
    subst hx
    rw [List.mem_flatMap] at hx2
    obtain ⟨r2, hr2, hmem⟩ := hx2
    obtain ⟨⟨a2, ha2⟩, ⟨b2, hb2⟩⟩ := hshape r2 (List.mem_cons_of_mem _ hr2)
    have hrow2 : expandRow t r2 = [(t, a2, b2)] := by
      rcases r2 with ⟨r21, r22⟩
      simp only at ha2 hb2
      simp [expandRow, ha2, hb2]
    rw [hrow2, List.mem_singleton] at hmem
    have heq : r2 = r := by
      rcases r2 with ⟨r21, r22⟩
      rcases r with ⟨r1, r2'⟩
      simp only at ha2 hb2 ha hb
      simp only [Prod.mk.injEq] at hmem
      rw [ha2, hb2, ha, hb, hmem.2.1, hmem.2.2]
    rw [heq] at hr2
    exact (List.nodup_cons.mp hnd).1 hr2

theorem nodup_flatMap_types (F : String → List (String × String × String)) :
    ∀ ts : List String, ts.Nodup → (∀ t, (F t).Nodup) →
      (∀ t e, e ∈ F t → e.1 = t) → (ts.flatMap F).Nodup := by
  intro ts
  induction ts with
  | nil => simp
  | cons t ts ih =>
    intro hnd hF hfst
    rw [List.flatMap_cons]
    apply List.Nodup.append (hF t) (ih (List.Nodup.of_cons hnd) hF hfst)
    intro e he he2
    rw [List.mem_flatMap] at he2
    obtain ⟨t2, ht2, he2⟩ := he2
    have h1 := hfst t e he
    have h2 := hfst t2 e he2
    rw [h1] at h2
    rw [h2] at hnd
    exact (List.nodup_cons.mp hnd).1 ht2

/-- A graph with a multi-labelled source node: type R has one edge from a
node labelled only A and one from a node labelled A and C, both to nodes
labelled B. -/
def gDup : Graph :=
  ⟨[⟨["A"], []⟩, ⟨["B"], []⟩, ⟨["A", "C"], []⟩, ⟨["B"], []⟩],
   [⟨"R", 0, 1⟩, ⟨"R", 2, 3⟩]⟩

/-- C6 counterexample: on gDup the schema's relationship list contains the
(R, A, B) entry twice — the nested label loops emit one entry per label
combination of each distinct sampled label-list pair, so the same
(type, source, target) triple can appear more than once. -/
theorem C6_duplicate_triple_counterexample :
    (get_basic_schema gDup).relationships =
      [("R", "A", "B"), ("R", "A", "B"), ("R", "C", "B")] ∧
    (get_basic_schema gDup).relationships.count ("R", "A", "B") = 2 := by
  refine ⟨?_, ?_⟩ <;> rfl

/-- C6 amended: property keys are always reported with type "unknown"; a
relationship type with no edges contributes no entries; the Person-only
database yields exactly the claimed schema; and when every node carries
exactly one label (and edge endpoints are valid indices) the relationship
entries never repeat a (type, source, target) triple — the original
uniqueness claim holds only under that single-label restriction. -/
theorem C6_basic_schema_characterisation :
    (∀ (g : Graph) (l : String) (ps : List (String × String))
       (kv : String × String),
      (l, ps) ∈ (get_basic_schema g).nodes → kv ∈ ps → kv.2 = "unknown") ∧
    (∀ (g : Graph) (e : String × String × String),
      e ∈ (get_basic_schema g).relationships →
        e.1 ∈ g.edges.map (fun e2 => e2.typ)) ∧
    get_basic_schema ⟨[⟨["Person"], ["name"]⟩], []⟩ =
      ⟨[("Person", [("name", "unknown")])], []⟩ ∧
    (∀ g : Graph, (∀ n ∈ g.nodes, ∃ a, n.labels = [a]) →
      (∀ e ∈ g.edges, e.src < g.nodes.length ∧ e.tgt < g.nodes.length) →
      ((get_basic_schema g).relationships).Nodup) := by
  refine ⟨?_, ?_, ?_, ?_⟩
  · intro g l ps kv hps hkv
    simp only [get_basic_schema, List.mem_map] at hps
    obtain ⟨label, _, heq⟩ := hps
    injection heq with h1 h2
    subst h2
    simp only [List.mem_map] at hkv
    obtain ⟨p, _, rfl⟩ := hkv
    rfl
  · intro g e he
    simp only [get_basic_schema, List.mem_flatMap] at he
    obtain ⟨t, ht, d, _, hmem⟩ := he
    rw [fst_of_mem_expandRow hmem]
    exact (mem_firstDedup t _).mp ht
  · rfl
  · intro g hone hvalid
    show ((relTypes g).flatMap fun t => (relDetails g t).flatMap (expandRow t)).Nodup
    apply nodup_flatMap_types
    · exact nodup_firstDedup _
    · intro t
      apply nodup_flatMap_expandRow t _ (nodup_relDetails g t)
      intro d hd
      obtain ⟨e, he, -, hde⟩ := mem_relDetails hd
      obtain ⟨h1, h2⟩ := hvalid e he
      rw [hde]
      exact ⟨hone _ (nodeAt_mem h1), hone _ (nodeAt_mem h2)⟩
    · intro t e he
      rw [List.mem_flatMap] at he
      obtain ⟨d, _, hmem⟩ := he
      exact fst_of_mem_expandRow hmem

/-- A single-label graph with one R edge from an A node to a B node. -/
def gSingle : Graph := ⟨[⟨["A"], []⟩, ⟨["B"], []⟩], [⟨"R", 0, 1⟩]⟩

/-- C6 witness: the no-duplicate conclusion at the concrete single-label
graph gSingle, with both hypotheses discharged there. -/
theorem C6_basic_schema_characterisation_witness :
    ((get_basic_schema gSingle).relationships).Nodup :=
  C6_basic_schema_characterisation.2.2.2 gSingle
    (by
      intro n hn
      simp only [gSingle, List.mem_cons, List.not_mem_nil, or_false] at hn
      rcases hn with rfl | rfl
      · exact ⟨"A", rfl⟩
      · exact ⟨"B", rfl⟩)
    (by decide)
